import Mathlib

/-!
Shallow embedding of the authentication core of the saas-multirepo backend
(apps/backend/app): the Account entity (app/models/user.py), the
authentication service (app/services/auth_service.py), the typed failures
(app/exceptions.py), the response schemas (app/schemas/auth.py) and the
forgot-password endpoint (app/api/v1/auth.py).

The external collaborators (the fastapi_core hashing and token-codec
primitives, which are a separate library and not part of this repository)
are modelled from the spec, in the namespace fastapi_core; tokens are
symbolic signed-claim values recording exactly the arguments the codec was
invoked with, so that two codec invocations that differ in any argument
produce distinguishable tokens.

The persistent store is a list of user records; each service operation
returns its result together with the committed store, so a returned store
equal to the input store means the operation made no persisted change.
-/

namespace SaasAuth

/-- Security section of the application settings (fastapi_core BaseSettings,
as used by auth_service.py: settings.security.access_token_expires_minutes).
Only the field the modelled operations read is kept. -/
structure SecuritySettings where
  access_token_expires_minutes : Nat
deriving Repr, DecidableEq

/-- Application settings (app/settings.py: Settings extending BaseSettings);
only the security section is read by the modelled operations. -/
structure Settings where
  security : SecuritySettings
deriving Repr, DecidableEq

/-- A Python value appearing as a JWT claim: either a string or some
non-string value, of which only Python truthiness is observable here. -/
inductive PyVal
  | str (s : String)
  | nonstr (truthy : Bool)
deriving Repr, DecidableEq

/-- Python truthiness of an optional claim value: None, the empty string and
falsy non-strings are falsy (this is the test the code performs
with the falsiness check on user_id). -/
def pyTruthy : Option PyVal → Bool
  | none => false
  | some (.str s) => !(s == "")
  | some (.nonstr t) => t

/-- Decoded JWT claims as the code reads them: payload.get("sub") and
payload.get("type"), each possibly absent. -/
structure Payload where
  sub : Option PyVal
  typ : Option String
deriving Repr, DecidableEq

/-- Symbolic token string. A token produced by the codec is a signed object
carrying its claims, the settings the codec was invoked with (none when the
caller omitted the settings argument, in which case the codec falls back to
its own default configuration), and the issuance instant. Any other string
(malformed, tampered or expired as far as the codec is concerned) is
represented by the invalid constructor. -/
inductive Token
  | signed (p : Payload) (cfg : Option Settings) (iat : Nat)
  | invalid (s : String)
deriving Repr, DecidableEq

/-- Claims carried by a token, none for a non-decodable one. -/
def Token.claims : Token → Option Payload
  | .signed p _ _ => some p
  | .invalid _ => none

/-- The settings argument the codec was invoked with when signing this
token (none for an omitted argument, and none again for a non-decodable
token). -/
def Token.signCfg : Token → Option (Option Settings)
  | .signed _ cfg _ => some cfg
  | .invalid _ => none

namespace fastapi_core

/-- Modelled from the spec: the external hashing primitive
"hash(password) -> opaque string". Modelled as an injective tagging of the
password; the service code only depends on hashes verifying against the
password they were derived from. -/
def get_password_hash (password : String) : String :=
  "pbkdf2-sha256-hash-of-" ++ password

/-- Modelled from the spec: the external primitive
"verify(password, hash) -> bool", the constant-time comparator of the
hashing primitive; returns false on mismatch, never throws. -/
def verify_password (password hash : String) : Bool :=
  hash == get_password_hash password

/-- Modelled from the spec: the Token Codec signs an access token over the
given subject claim; the settings argument is optional in the codec and is
recorded in the symbolic token (an omitted argument means the codec uses
its own default configuration). -/
def create_access_token (sub : String) (cfg : Option Settings) (now : Nat) : Token :=
  .signed { sub := some (.str sub), typ := some "access" } cfg now

/-- Modelled from the spec: the Token Codec signs a refresh token, type tag
"refresh", over the given subject claim. -/
def create_refresh_token (sub : String) (cfg : Option Settings) (now : Nat) : Token :=
  .signed { sub := some (.str sub), typ := some "refresh" } cfg now

/-- Modelled from the spec: the Token Codec signs a password-reset token,
type tag "password_reset", over the given subject claim. -/
def create_password_reset_token (sub : String) (cfg : Option Settings) (now : Nat) : Token :=
  .signed { sub := some (.str sub), typ := some "password_reset" } cfg now

/-- Modelled from the spec: "decode(token) -> claims or failure". Decoding
succeeds exactly on signed tokens and returns their claims; a malformed,
unverifiable or expired token is represented by the invalid constructor and
makes decoding fail. The settings argument does not influence the symbolic
decode. -/
def verify_token (t : Token) (cfg : Option Settings) : Except String Payload :=
  match t with
  | .signed p _ _ => .ok p
  | .invalid _ => .error "Could not validate credentials"

end fastapi_core

/-- User record (app/models/user.py, class User): the persisted account
entity. Timestamps are instants in seconds; reset_token stores the raw
reset-token string denormalized on the account. The unused columns
(updated_at, settings, profile relationship) are omitted. -/
structure User where
  id : String
  email : String
  name : String
  hashed_password : String
  is_active : Bool
  created_at : Nat
  reset_token : Option Token
  reset_token_expiry : Option Nat
  tier : String
deriving Repr, DecidableEq

/-- User.verify_password: verify a candidate against the stored hash. -/
def User.verify_password (u : User) (password : String) : Bool :=
  fastapi_core.verify_password password u.hashed_password

/-- User.set_password: replace the stored hash with the hash of the new
password. -/
def User.set_password (u : User) (password : String) : User :=
  { u with hashed_password := fastapi_core.get_password_hash password }

/-- User.set_reset_token: set the reset token and its expiry. -/
def User.set_reset_token (u : User) (token : Token) (expiry : Nat) : User :=
  { u with reset_token := some token, reset_token_expiry := some expiry }

/-- User.clear_reset_token: clear the reset token and its expiry. -/
def User.clear_reset_token (u : User) : User :=
  { u with reset_token := none, reset_token_expiry := none }

/-- User.is_reset_token_valid (app/models/user.py lines 66-89), as the code
actually behaves. After the initial "if not self.reset_token: return False"
guard, the first statement of the try block calls verify_token — a name the
module never binds (user.py line 11 imports only verify_password and
get_password_hash from fastapi_core), so that statement raises NameError,
which the final "except Exception: return False" catches. The function
therefore returns False on every input; no exception escapes. -/
def User.is_reset_token_valid (u : User) (token : Token) : Bool :=
  match u.reset_token with
  | none => false
  | some _ => false

/-- The validation the try block of User.is_reset_token_valid spells out,
i.e. what the function would compute if the module had imported
verify_token; the decode of the codec is abstracted as the parameter verify
(returning none when it raises, which the except clause turns into False).
Kept to state that the written validation logic — not only the actual
always-False behavior — is fail-closed and never consults
reset_token_expiry. -/
def User.is_reset_token_valid_as_written (verify : Token → Option Payload)
    (u : User) (token : Token) : Bool :=
  match u.reset_token with
  | none => false
  | some stored =>
    match verify token with
    | none => false
    | some payload =>
      if payload.typ ≠ some "password_reset" then false
      else if stored ≠ token then false
      else if payload.sub ≠ some (.str u.id) then false
      else true

/-- Typed failures (app/exceptions.py); each carries its message. The
codecFailure constructor stands for an exception of the external codec
propagating out of verify_token uncaught. -/
inductive AuthError
  | userNotFound (message : String)
  | userAlreadyExists (message : String)
  | invalidCredentials (message : String)
  | invalidToken (message : String)
  | inactiveUser (message : String)
  | invalidTokenType (message : String)
  | invalidResetToken (message : String)
  | codecFailure (message : String)
deriving Repr, DecidableEq

/-- UserNotFoundError with its default message (AccountNotFound in the spec). -/
def UserNotFoundError : AuthError := .userNotFound "User not found"

/-- UserAlreadyExistsError with its default message (AccountExists in the spec). -/
def UserAlreadyExistsError : AuthError := .userAlreadyExists "User with this email already exists"

/-- InvalidCredentialsError with its default message. -/
def InvalidCredentialsError : AuthError := .invalidCredentials "Incorrect email or password"

/-- InvalidTokenError with an explicit message (InvalidToken in the spec). -/
def InvalidTokenError (message : String) : AuthError := .invalidToken message

/-- InactiveUserError with its default message (InactiveAccount in the spec). -/
def InactiveUserError : AuthError := .inactiveUser "User account is inactive"

/-- InvalidTokenTypeError with its default message (WrongTokenType in the spec). -/
def InvalidTokenTypeError : AuthError := .invalidTokenType "Invalid token type"

/-- InvalidResetTokenError with its default message (InvalidOrExpiredResetToken
in the spec). -/
def InvalidResetTokenError : AuthError := .invalidResetToken "Invalid or expired reset token"

/-- UserResponse (app/schemas/auth.py lines 60-70): the public account
view; exactly these six fields and no others. -/
structure UserResponse where
  id : String
  email : String
  name : String
  isActive : Bool
  createdAt : Nat
  tier : String
deriving Repr, DecidableEq

/-- UserResponse.model_validate: project a user record onto the public
view (pydantic from_attributes validation with the declared aliases). -/
def UserResponse.model_validate (u : User) : UserResponse :=
  { id := u.id, email := u.email, name := u.name,
    isActive := u.is_active, createdAt := u.created_at, tier := u.tier }

/-- TokenResponse (app/schemas/auth.py lines 45-51). -/
structure TokenResponse where
  accessToken : Token
  refreshToken : Token
  tokenType : String
  expiresIn : Nat
deriving Repr, DecidableEq

/-- LoginResponse (app/schemas/auth.py lines 73-80). -/
structure LoginResponse where
  user : UserResponse
  accessToken : Token
  refreshToken : Token
  tokenType : String
  expiresIn : Nat
deriving Repr, DecidableEq

/-- MessageResponse (app/schemas/auth.py lines 83-86). -/
structure MessageResponse where
  message : String
deriving Repr, DecidableEq

/-- The persisted store: the list of user records, in insertion order. -/
abbrev Db := List User

/-- Python str.lower, characterwise lowercasing (String is a list of
characters here, so this is computable by plain structural recursion). -/
def py_lower (s : String) : String :=
  ⟨s.data.map Char.toLower⟩

/-- Python str.strip with no argument: remove leading and trailing
whitespace. -/
def py_strip (s : String) : String :=
  ⟨((s.data.dropWhile Char.isWhitespace).reverse.dropWhile Char.isWhitespace).reverse⟩

/-- Email normalization as performed by every service entry point:
email.lower().strip(). -/
def normalize_email (email : String) : String :=
  py_strip (py_lower email)

instance {ε α : Type} [DecidableEq ε] [DecidableEq α] : DecidableEq (Except ε α) := fun x y =>
  match x, y with
  | .error a, .error b =>
    if h : a = b then isTrue (by rw [h])
    else isFalse (by intro hc; injection hc; contradiction)
  | .error _, .ok _ => isFalse (by intro hc; exact Except.noConfusion hc)
  | .ok _, .error _ => isFalse (by intro hc; exact Except.noConfusion hc)
  | .ok a, .ok b =>
    if h : a = b then isTrue (by rw [h])
    else isFalse (by intro hc; injection hc; contradiction)

/-- ORM-style in-place update: mutate the first record satisfying p (the
object returned by query(...).first()), leaving the rest of the store
untouched. -/
def update_first (p : User → Bool) (f : User → User) : Db → Db
  | [] => []
  | u :: us => if p u then f u :: us else u :: update_first p f us

namespace AuthService

/-- AuthService._create_login_response (auth_service.py lines 38-57): both
tokens are created passing the application settings to the codec;
expiresIn is the configured access-token lifetime in seconds. -/
def create_login_response (user : User) (st : Settings) (now : Nat) : LoginResponse :=
  { user := UserResponse.model_validate user,
    accessToken := fastapi_core.create_access_token user.id (some st) now,
    refreshToken := fastapi_core.create_refresh_token user.id (some st) now,
    tokenType := "bearer",
    expiresIn := st.security.access_token_expires_minutes * 60 }

/-- AuthService.register_user (auth_service.py lines 59-95). fresh_id is
the ULID generated for the new record, now the request instant; the second
component of the result is the committed store. -/
def register_user (email password name fresh_id : String) (st : Settings) (now : Nat)
    (db : Db) : Except AuthError LoginResponse × Db :=
  let normalized_email := normalize_email email
  match (db : List User).find? (fun u => u.email == normalized_email) with
  | some _ => (.error UserAlreadyExistsError, db)
  | none =>
    let user : User :=
      { id := fresh_id, email := normalized_email, name := name,
        hashed_password := fastapi_core.get_password_hash password,
        is_active := true, created_at := now,
        reset_token := none, reset_token_expiry := none, tier := "free" }
    (.ok (create_login_response user st now), db ++ [user])

/-- AuthService.authenticate_user (auth_service.py lines 97-126). The
single source test "not user or not user.verify_password(password)" is
split into its two cases, both raising InvalidCredentialsError with the
same default message. -/
def authenticate_user (email password : String) (st : Settings) (now : Nat)
    (db : Db) : Except AuthError LoginResponse × Db :=
  let normalized_email := normalize_email email
  match (db : List User).find? (fun u => u.email == normalized_email) with
  | none => (.error InvalidCredentialsError, db)
  | some user =>
    if !(user.verify_password password) then (.error InvalidCredentialsError, db)
    else if !user.is_active then (.error InactiveUserError, db)
    else (.ok (create_login_response user st now), db)

/-- AuthService.refresh_tokens (auth_service.py lines 128-178). Note that
the two token-creation calls at lines 171-172 omit the settings argument
that _create_login_response passes, so the symbolic tokens record cfg =
none there. -/
def refresh_tokens (refresh_token : Token) (st : Settings) (now : Nat)
    (db : Db) : Except AuthError TokenResponse × Db :=
  match fastapi_core.verify_token refresh_token (some st) with
  | .error e => (.error (.codecFailure e), db)
  | .ok payload =>
    if payload.typ ≠ some "refresh" then (.error InvalidTokenTypeError, db)
    else if !(pyTruthy payload.sub) then (.error (InvalidTokenError "Invalid token payload"), db)
    else
      match payload.sub with
      | some (.str user_id) =>
        if user_id.length ≠ 26 then (.error (InvalidTokenError "Invalid user ID format in token"), db)
        else
          match (db : List User).find? (fun u => u.id == user_id) with
          | none => (.error UserNotFoundError, db)
          | some user =>
            if !user.is_active then (.error InactiveUserError, db)
            else
              (.ok { accessToken := fastapi_core.create_access_token user.id none now,
                     refreshToken := fastapi_core.create_refresh_token user.id none now,
                     tokenType := "bearer",
                     expiresIn := st.security.access_token_expires_minutes * 60 }, db)
      | _ => (.error (InvalidTokenError "Invalid user ID format in token"), db)

/-- AuthService.request_password_reset (auth_service.py lines 204-231):
returns the reset token when the account exists and is active (storing the
token and a now + 1 hour expiry on the account and committing), none
otherwise with no change to the store. -/
def request_password_reset (email : String) (st : Settings) (now : Nat)
    (db : Db) : Option Token × Db :=
  let normalized_email := normalize_email email
  match (db : List User).find? (fun u => u.email == normalized_email) with
  | none => (none, db)
  | some user =>
    if !user.is_active then (none, db)
    else
      let token := fastapi_core.create_password_reset_token user.id (some st) now
      (some token,
       update_first (fun u => u.email == normalized_email)
         (fun u => u.set_reset_token token (now + 3600)) db)

/-- The scan of AuthService.reset_password over the users holding a
non-null reset token, in store order: on the first user whose
is_reset_token_valid(token) succeeds, set the new password, clear the
token, and return the committed store; none when no user matches. -/
def reset_password_scan (token : Token) (new_password : String) : Db → Option Db
  | [] => none
  | u :: us =>
    if u.reset_token.isSome && u.is_reset_token_valid token then
      some ((u.set_password new_password).clear_reset_token :: us)
    else
      match reset_password_scan token new_password us with
      | some us2 => some (u :: us2)
      | none => none

/-- AuthService.reset_password (auth_service.py lines 233-259). -/
def reset_password (token : Token) (new_password : String)
    (db : Db) : Except AuthError Bool × Db :=
  match reset_password_scan token new_password db with
  | some db2 => (.ok true, db2)
  | none => (.error InvalidResetTokenError, db)

/-- AuthService.change_password (auth_service.py lines 261-295). -/
def change_password (user_id current_password new_password : String)
    (db : Db) : Except AuthError Bool × Db :=
  match (db : List User).find? (fun u => u.id == user_id) with
  | none => (.error UserNotFoundError, db)
  | some user =>
    if !user.is_active then (.error InactiveUserError, db)
    else if !(user.verify_password current_password) then
      (.error (.invalidCredentials "Current password is incorrect"), db)
    else
      (.ok true,
       update_first (fun u => u.id == user_id)
         (fun u => u.set_password new_password) db)

/-- AuthService.get_user_profile (auth_service.py lines 191-202). -/
def get_user_profile (user : User) : UserResponse :=
  UserResponse.model_validate user

end AuthService

/-- The forgot-password endpoint (app/api/v1/auth.py lines 103-132): runs
request_password_reset and always returns the same success message,
whatever the outcome (the development-only logging is I/O with no effect
on the store). -/
def forgot_password (email : String) (st : Settings) (now : Nat)
    (db : Db) : MessageResponse × Db :=
  let r := AuthService.request_password_reset email st now db
  ({ message := "If the email exists, a password reset link has been sent" }, r.2)

/-- The subject-claim check of the refresh flow (auth_service.py lines 153-160):
the subject passes exactly when it is a string of length 26; anything else
("if not user_id" falsy, a non-string value, or a wrong length) raises
InvalidTokenError. -/
def subject_ok : Option PyVal → Bool
  | some (.str s) => s.length == 26
  | _ => false

/-- Invariant of the Account data model: the reset-token string and its
expiry are either both present or both absent. -/
def reset_fields_consistent (u : User) : Bool :=
  u.reset_token.isSome == u.reset_token_expiry.isSome

/-- Every record of the store satisfies the reset-fields invariant. -/
def db_consistent (db : Db) : Bool :=
  (db : List User).all reset_fields_consistent

namespace Fixtures

/-- Concrete settings: 30-minute access-token lifetime. -/
def st0 : Settings := { security := { access_token_expires_minutes := 30 } }

/-- A 26-character ULID string. -/
def id0 : String := "01ARZ3NDEKTSV4RRFFQ69G5FAV"

/-- A second, distinct 26-character ULID string. -/
def id1 : String := "01BX5ZZKBKACTAV9WEVGEMMVRZ"

/-- A password-reset token for id0, signed with the application settings
at instant 0: exactly what request_password_reset stores. -/
def t0 : Token := fastapi_core.create_password_reset_token id0 (some st0) 0

/-- An active account holding the stored, unexpired reset token t0. -/
def u0 : User :=
  { id := id0, email := "alice@example.com", name := "Alice",
    hashed_password := fastapi_core.get_password_hash "OldPassword1x",
    is_active := true, created_at := 0,
    reset_token := some t0, reset_token_expiry := some 3600, tier := "free" }

/-- An active account with no outstanding reset token. -/
def u1 : User :=
  { id := id1, email := "bob@example.com", name := "Bob",
    hashed_password := fastapi_core.get_password_hash "CorrectHorse1x",
    is_active := true, created_at := 0,
    reset_token := none, reset_token_expiry := none, tier := "free" }

/-- A refresh token for u1, issued by the login helper (settings passed)
at instant 0. -/
def rt0 : Token := fastapi_core.create_refresh_token id1 (some st0) 0

end Fixtures

/-- User.is_reset_token_valid returns false on every input: both branches
of its definition are false, since the try block aborts on the unresolved
name verify_token and the except clause returns False. -/
theorem is_reset_token_valid_eq_false (u : User) (tok : Token) :
    u.is_reset_token_valid tok = false := by
  unfold User.is_reset_token_valid
  cases u.reset_token <;> rfl

/-- The reset_password scan consequently matches no user on any store. -/
theorem reset_password_scan_eq_none (tok : Token) (pw : String) (db : Db) :
    AuthService.reset_password_scan tok pw db = none := by
  induction db with
  | nil => rfl
  | cons u us ih =>
    unfold AuthService.reset_password_scan
    rw [is_reset_token_valid_eq_false, ih]
    simp

/-- Unfolding of the written-out validation when no reset token is stored. -/
theorem is_reset_token_valid_as_written_none (verify : Token → Option Payload)
    (u : User) (tok : Token) (hst : u.reset_token = none) :
    User.is_reset_token_valid_as_written verify u tok = false := by
  unfold User.is_reset_token_valid_as_written
  rw [hst]

/-- Unfolding of the written-out validation when decoding fails. -/
theorem is_reset_token_valid_as_written_decode_fail (verify : Token → Option Payload)
    (u : User) (tok stored : Token) (hst : u.reset_token = some stored)
    (hv : verify tok = none) :
    User.is_reset_token_valid_as_written verify u tok = false := by
  unfold User.is_reset_token_valid_as_written
  rw [hst, hv]

/-- Unfolding of the written-out validation when a token is stored and the
candidate decodes: the three checks run in source order. -/
theorem is_reset_token_valid_as_written_some (verify : Token → Option Payload)
    (u : User) (tok stored : Token) (p : Payload)
    (hst : u.reset_token = some stored) (hv : verify tok = some p) :
    User.is_reset_token_valid_as_written verify u tok
      = if p.typ ≠ some "password_reset" then false
        else if stored ≠ tok then false
        else if p.sub ≠ some (.str u.id) then false
        else true := by
  unfold User.is_reset_token_valid_as_written
  rw [hst, hv]

/-- C1: the claim asserts that resetPassword with the exact stored, fresh,
correctly typed password_reset token succeeds once; on the code it never
succeeds. With the account u0 holding the stored unexpired token t0 and
candidate t0 itself, reset_password raises InvalidOrExpiredResetToken and
leaves the store unchanged — and indeed it does so on every input, because
user.py calls verify_token without ever importing it, so the resulting
NameError is swallowed by the except clause and User.is_reset_token_valid
can never return True. -/
theorem C1_reset_password_never_succeeds :
    Fixtures.u0.reset_token = some Fixtures.t0
  ∧ Fixtures.t0.claims = some { sub := some (.str Fixtures.u0.id), typ := some "password_reset" }
  ∧ (AuthService.reset_password Fixtures.t0 "NewPassword1x" [Fixtures.u0]).1
      = .error InvalidResetTokenError
  ∧ (AuthService.reset_password Fixtures.t0 "NewPassword1x" [Fixtures.u0]).2 = [Fixtures.u0]
  ∧ ∀ tok pw db, (AuthService.reset_password tok pw db).1 = .error InvalidResetTokenError
       ∧ (AuthService.reset_password tok pw db).2 = db := by
  refine ⟨rfl, rfl, by decide, by decide, ?_⟩
  intro tok pw db
  unfold AuthService.reset_password
  rw [reset_password_scan_eq_none]
  exact ⟨rfl, rfl⟩

/-- C4: User.is_reset_token_valid is total — the embedding returns a
boolean on every input because every exception raised inside the try block
is caught — and fails closed: it returns false when no reset token is
stored, when the decoded type of the candidate is not password_reset, when the
decoded subject differs from the account id, or when the candidate is not
byte-equal to the stored token. The same fail-closed facts are proved for
the validation logic the try block spells out
(User.is_reset_token_valid_as_written, with the codec decode abstracted as
the parameter verify, returning none when decoding fails). -/
theorem C4_is_reset_token_valid_fails_closed (u : User) (tok : Token)
    (verify : Token → Option Payload) :
    (u.is_reset_token_valid tok = false ∨ u.is_reset_token_valid tok = true)
  ∧ (u.reset_token = none → u.is_reset_token_valid tok = false)
  ∧ (∀ p, tok.claims = some p → p.typ ≠ some "password_reset" → u.is_reset_token_valid tok = false)
  ∧ (∀ p, tok.claims = some p → p.sub ≠ some (.str u.id) → u.is_reset_token_valid tok = false)
  ∧ (u.reset_token ≠ some tok → u.is_reset_token_valid tok = false)
  ∧ (u.reset_token = none → User.is_reset_token_valid_as_written verify u tok = false)
  ∧ (verify tok = none → User.is_reset_token_valid_as_written verify u tok = false)
  ∧ (∀ p, verify tok = some p → p.typ ≠ some "password_reset" →
       User.is_reset_token_valid_as_written verify u tok = false)
  ∧ (∀ stored, u.reset_token = some stored → stored ≠ tok →
       User.is_reset_token_valid_as_written verify u tok = false)
  ∧ (∀ p, verify tok = some p → p.sub ≠ some (.str u.id) →
       User.is_reset_token_valid_as_written verify u tok = false) := by
  refine ⟨Or.inl (is_reset_token_valid_eq_false u tok),
    fun _ => is_reset_token_valid_eq_false u tok,
    fun _ _ _ => is_reset_token_valid_eq_false u tok,
    fun _ _ _ => is_reset_token_valid_eq_false u tok,
    fun _ => is_reset_token_valid_eq_false u tok, ?_, ?_, ?_, ?_, ?_⟩
  · intro h
    exact is_reset_token_valid_as_written_none verify u tok h
  · intro hv
    cases hrt : u.reset_token with
    | none => exact is_reset_token_valid_as_written_none verify u tok hrt
    | some stored => exact is_reset_token_valid_as_written_decode_fail verify u tok stored hrt hv
  · intro p hv hp
    cases hrt : u.reset_token with
    | none => exact is_reset_token_valid_as_written_none verify u tok hrt
    | some stored =>
      rw [is_reset_token_valid_as_written_some verify u tok stored p hrt hv, if_pos hp]
  · intro stored hst hne
    cases hv : verify tok with
    | none => exact is_reset_token_valid_as_written_decode_fail verify u tok stored hst hv
    | some p =>
      rw [is_reset_token_valid_as_written_some verify u tok stored p hst hv]
      by_cases hp : p.typ ≠ some "password_reset"
      · rw [if_pos hp]
      · rw [if_neg hp, if_pos hne]
  · intro p hv hp
    cases hrt : u.reset_token with
    | none => exact is_reset_token_valid_as_written_none verify u tok hrt
    | some stored =>
      rw [is_reset_token_valid_as_written_some verify u tok stored p hrt hv]
      by_cases ht : p.typ ≠ some "password_reset"
      · rw [if_pos ht]
      · rw [if_neg ht]
        by_cases hs : stored ≠ tok
        · rw [if_pos hs]
        · rw [if_neg hs, if_pos hp]

/-- Witness for C4 at concrete inputs: an account with no stored reset
token fails closed, both for the actual function and for the written-out
validation logic with the symbolic decode Token.claims as the verify
oracle. -/
theorem C4_witness :
    Fixtures.u1.is_reset_token_valid Fixtures.t0 = false
  ∧ User.is_reset_token_valid_as_written Token.claims Fixtures.u1 Fixtures.t0 = false :=
  ⟨(C4_is_reset_token_valid_fails_closed Fixtures.u1 Fixtures.t0 Token.claims).2.1 rfl,
   (C4_is_reset_token_valid_fails_closed Fixtures.u1 Fixtures.t0 Token.claims).2.2.2.2.2.1 rfl⟩

/-- C10: the result of the reset-token validity check never depends on the
stored reset_token_expiry field: two account states differing only in that
field give the same result on every candidate, both for the actual
function and for the validation logic written in the try block (whatever
decode oracle the codec provides). Expiry of a reset token is judged, if
at all, only by the claims of the signed token itself. -/
theorem C10_validity_independent_of_stored_expiry (u : User) (e1 e2 : Option Nat)
    (tok : Token) (verify : Token → Option Payload) :
    User.is_reset_token_valid { u with reset_token_expiry := e1 } tok
      = User.is_reset_token_valid { u with reset_token_expiry := e2 } tok
  ∧ User.is_reset_token_valid_as_written verify { u with reset_token_expiry := e1 } tok
      = User.is_reset_token_valid_as_written verify { u with reset_token_expiry := e2 } tok :=
  ⟨rfl, rfl⟩

/-- C2: login with an unknown email and login with a known email but
non-verifying password produce the very same typed failure — the
InvalidCredentialsError value with its single default message — and leave
the store unchanged, so the two failure cases are indistinguishable to the
caller. -/
theorem C2_login_enumeration_resistant (email1 password1 email2 password2 : String)
    (st1 st2 : Settings) (now1 now2 : Nat) (db1 db2 : Db) (u : User)
    (h1 : (db1 : List User).find? (fun v => v.email == normalize_email email1) = none)
    (h2 : (db2 : List User).find? (fun v => v.email == normalize_email email2) = some u)
    (h3 : u.verify_password password2 = false) :
    (AuthService.authenticate_user email1 password1 st1 now1 db1).1
      = .error InvalidCredentialsError
  ∧ (AuthService.authenticate_user email2 password2 st2 now2 db2).1
      = .error InvalidCredentialsError
  ∧ (AuthService.authenticate_user email1 password1 st1 now1 db1).1
      = (AuthService.authenticate_user email2 password2 st2 now2 db2).1
  ∧ (AuthService.authenticate_user email1 password1 st1 now1 db1).2 = db1
  ∧ (AuthService.authenticate_user email2 password2 st2 now2 db2).2 = db2 := by
  have e1 : AuthService.authenticate_user email1 password1 st1 now1 db1
      = (.error InvalidCredentialsError, db1) := by
    unfold AuthService.authenticate_user
    dsimp only
    rw [h1]
  have e2 : AuthService.authenticate_user email2 password2 st2 now2 db2
      = (.error InvalidCredentialsError, db2) := by
    unfold AuthService.authenticate_user
    dsimp only
    rw [h2]
    simp [h3]
  exact ⟨by rw [e1], by rw [e2], by rw [e1, e2], by rw [e1], by rw [e2]⟩

/-- Witness for C2 at concrete inputs: an empty store versus a store
holding bob with a wrong candidate password give the same failure. -/
theorem C2_witness :
    ([] : List User).find? (fun v => v.email == normalize_email "ghost@example.com") = none
  ∧ ([Fixtures.u1] : List User).find? (fun v => v.email == normalize_email "Bob@Example.com ") = some Fixtures.u1
  ∧ Fixtures.u1.verify_password "wrongpass" = false
  ∧ (AuthService.authenticate_user "ghost@example.com" "anypassword" Fixtures.st0 1 []).1
      = (AuthService.authenticate_user "Bob@Example.com " "wrongpass" Fixtures.st0 2 [Fixtures.u1]).1 := by
  refine ⟨rfl, by decide, by decide, ?_⟩
  exact (C2_login_enumeration_resistant "ghost@example.com" "anypassword"
    "Bob@Example.com " "wrongpass" Fixtures.st0 Fixtures.st0 1 2 [] [Fixtures.u1]
    Fixtures.u1 rfl (by decide) (by decide)).2.2.1

/-- Updating the first record matched by a predicate the update preserves
moves find? to the updated record. -/
theorem find?_update_first (p : User → Bool) (f : User → User)
    (hp : ∀ v, p (f v) = p v) (db : Db) (u : User)
    (h : (db : List User).find? p = some u) :
    ((update_first p f db) : List User).find? p = some (f u) := by
  induction db with
  | nil => simp at h
  | cons w ws ih =>
    by_cases hw : p w
    · rw [List.find?_cons_of_pos _ hw] at h
      injection h with h
      subst h
      unfold update_first
      rw [if_pos hw]
      exact List.find?_cons_of_pos _ (by rw [hp]; exact hw)
    · rw [List.find?_cons_of_neg _ hw] at h
      unfold update_first
      rw [if_neg hw, List.find?_cons_of_neg _ hw]
      exact ih h

/-- Evaluation of request_password_reset by cases on the email lookup and
the active flag. -/
theorem request_password_reset_eq (email : String) (st : Settings) (now : Nat) (db : Db) :
    AuthService.request_password_reset email st now db
      = match (db : List User).find? (fun v => v.email == normalize_email email) with
        | none => (none, db)
        | some user =>
          if user.is_active then
            (some (fastapi_core.create_password_reset_token user.id (some st) now),
             update_first (fun v => v.email == normalize_email email)
               (fun v => v.set_reset_token
                 (fastapi_core.create_password_reset_token user.id (some st) now) (now + 3600)) db)
          else (none, db) := by
  unfold AuthService.request_password_reset
  dsimp only
  cases hf : (db : List User).find? (fun v => v.email == normalize_email email) with
  | none => rfl
  | some u =>
    by_cases ha : u.is_active
    · simp [ha]
    · simp [ha]

/-- C3: the forgot-password endpoint returns the identical success message
whether or not an account with the normalized email exists; a reset token
and its one-hour expiry are stored (the returned store is the committed
one) exactly when a matching account exists and is active, and in the
absent-or-inactive case the persisted store is unchanged. -/
theorem C3_forgot_password_uniform (email : String) (st : Settings) (now : Nat) (db : Db) :
    (forgot_password email st now db).1
      = { message := "If the email exists, a password reset link has been sent" }
  ∧ (((AuthService.request_password_reset email st now db).1.isSome = true) ↔
       (∃ u, (db : List User).find? (fun v => v.email == normalize_email email) = some u
             ∧ u.is_active = true))
  ∧ ((AuthService.request_password_reset email st now db).1 = none →
       (AuthService.request_password_reset email st now db).2 = db)
  ∧ (∀ tok, (AuthService.request_password_reset email st now db).1 = some tok →
       ∃ u, (db : List User).find? (fun v => v.email == normalize_email email) = some u
         ∧ tok = fastapi_core.create_password_reset_token u.id (some st) now
         ∧ ((AuthService.request_password_reset email st now db).2 : List User).find?
             (fun v => v.email == normalize_email email)
             = some (u.set_reset_token tok (now + 3600))
         ∧ (u.set_reset_token tok (now + 3600)).reset_token = some tok
         ∧ (u.set_reset_token tok (now + 3600)).reset_token_expiry = some (now + 3600)) := by
  rw [forgot_password]
  refine ⟨rfl, ?_, ?_, ?_⟩
  · rw [request_password_reset_eq]
    cases hf : (db : List User).find? (fun v => v.email == normalize_email email) with
    | none =>
      dsimp only
      constructor
      · intro h; exact absurd h (by simp)
      · rintro ⟨u, hu, _⟩; exact absurd hu (by simp)
    | some u =>
      dsimp only
      by_cases ha : u.is_active
      · rw [if_pos ha]
        refine iff_of_true ?_ ⟨u, rfl, ha⟩
        simp
      · rw [if_neg ha]
        constructor
        · intro h; exact absurd h (by simp)
        · rintro ⟨v, hv, hva⟩
          injection hv with hv
          subst hv
          exact absurd hva ha
  · rw [request_password_reset_eq]
    cases hf : (db : List User).find? (fun v => v.email == normalize_email email) with
    | none => intro _; rfl
    | some u =>
      dsimp only
      by_cases ha : u.is_active
      · rw [if_pos ha]; intro h; exact absurd h (by simp)
      · rw [if_neg ha]; intro _; rfl
  · intro tok h
    rw [request_password_reset_eq] at h
    rw [request_password_reset_eq]
    cases hf : (db : List User).find? (fun v => v.email == normalize_email email) with
    | none => rw [hf] at h; exact absurd h (by simp)
    | some u =>
      rw [hf] at h
      dsimp only at h ⊢
      by_cases ha : u.is_active
      · rw [if_pos ha] at h ⊢
        dsimp only at h
        injection h with h
        subst h
        refine ⟨u, rfl, rfl, ?_, rfl, rfl⟩
        dsimp only
        exact find?_update_first (fun v => v.email == normalize_email email)
          (fun v => v.set_reset_token
            (fastapi_core.create_password_reset_token u.id (some st) now) (now + 3600))
          (fun v => rfl) db u hf
      · rw [if_neg ha] at h
        exact absurd h (by simp)

/-- Witness for C3 at concrete inputs: the message for a missing email
equals the message for the existing alice email, and after the alice request
the store holds her account with the new token and a 3600-second expiry
offset. -/
theorem C3_witness :
    (forgot_password "Ghost@Example.com" Fixtures.st0 5 [Fixtures.u0]).1
      = (forgot_password "alice@example.com" Fixtures.st0 5 [Fixtures.u0]).1
  ∧ ((AuthService.request_password_reset "alice@example.com" Fixtures.st0 5 [Fixtures.u0]).2 : List User).find?
      (fun v => v.email == normalize_email "alice@example.com")
      = some (Fixtures.u0.set_reset_token
          (fastapi_core.create_password_reset_token Fixtures.id0 (some Fixtures.st0) 5) 3605) := by
  constructor
  · exact ((C3_forgot_password_uniform "Ghost@Example.com" Fixtures.st0 5 [Fixtures.u0]).1).trans
      ((C3_forgot_password_uniform "alice@example.com" Fixtures.st0 5 [Fixtures.u0]).1).symm
  · obtain ⟨u, hfind, htok, hupd, _, _⟩ :=
      (C3_forgot_password_uniform "alice@example.com" Fixtures.st0 5 [Fixtures.u0]).2.2.2
        (fastapi_core.create_password_reset_token Fixtures.id0 (some Fixtures.st0) 5) (by decide)
    have h0 : ([Fixtures.u0] : List User).find?
        (fun v => v.email == normalize_email "alice@example.com") = some Fixtures.u0 := by decide
    rw [h0] at hfind
    injection hfind with hfind
    rw [← hfind] at hupd
    exact hupd

/-- Evaluation of refresh_tokens once the token has decoded to a payload
with type "refresh" and a non-empty string subject: the remaining checks
are the 26-character test, the id lookup and the active flag. -/
theorem refresh_tokens_decoded (tok : Token) (st : Settings) (now : Nat) (db : Db)
    (p : Payload) (s : String)
    (hdec : fastapi_core.verify_token tok (some st) = Except.ok p)
    (htyp : p.typ = some "refresh") (hsub : p.sub = some (.str s)) (hs0 : s ≠ "") :
    AuthService.refresh_tokens tok st now db
      = if s.length ≠ 26 then (.error (InvalidTokenError "Invalid user ID format in token"), db)
        else match (db : List User).find? (fun u => u.id == s) with
          | none => (.error UserNotFoundError, db)
          | some user =>
            if !user.is_active then (.error InactiveUserError, db)
            else (.ok { accessToken := fastapi_core.create_access_token user.id none now,
                        refreshToken := fastapi_core.create_refresh_token user.id none now,
                        tokenType := "bearer",
                        expiresIn := st.security.access_token_expires_minutes * 60 }, db) := by
  unfold AuthService.refresh_tokens
  rw [hdec]
  dsimp only
  rw [hsub, if_neg (by simp [htyp])]
  have hpt : pyTruthy (some (.str s)) = true := by
    simp only [pyTruthy, Bool.not_eq_true']
    exact beq_eq_false_iff_ne.mpr hs0
  rw [hpt]
  simp only [Bool.not_true]
  rw [if_neg (by simp)]

/-- Evaluation of refresh_tokens on the success path: decoded refresh-typed
token, well-formed 26-character subject, account found and active. -/
theorem refresh_tokens_success (tok : Token) (st : Settings) (now : Nat) (db : Db)
    (p : Payload) (s : String) (u : User)
    (hdec : fastapi_core.verify_token tok (some st) = Except.ok p)
    (htyp : p.typ = some "refresh") (hsub : p.sub = some (.str s))
    (hlen : s.length = 26)
    (hfind : (db : List User).find? (fun v => v.id == s) = some u)
    (hact : u.is_active = true) :
    AuthService.refresh_tokens tok st now db
      = (.ok { accessToken := fastapi_core.create_access_token u.id none now,
               refreshToken := fastapi_core.create_refresh_token u.id none now,
               tokenType := "bearer",
               expiresIn := st.security.access_token_expires_minutes * 60 }, db) := by
  have hs0 : s ≠ "" := by
    intro hc
    rw [hc, show ("" : String).length = 0 from rfl] at hlen
    exact absurd hlen (by simp)
  rw [refresh_tokens_decoded tok st now db p s hdec htyp hsub hs0]
  rw [if_neg (by simp [hlen]), hfind]
  dsimp only
  rw [if_neg (by simp [hact])]

/-- C5: once the refresh token decodes, refresh raises WrongTokenType
(InvalidTokenTypeError) when the type claim is not "refresh"; raises
InvalidToken (InvalidTokenError, with one of its two messages) when the
subject is missing or not a well-formed 26-character identifier; raises
AccountNotFound (UserNotFoundError) when no account has the subject id;
raises InactiveAccount (InactiveUserError) when that account is inactive;
and only otherwise returns a new access+refresh token pair. -/
theorem C5_refresh_error_taxonomy (tok : Token) (st : Settings) (now : Nat) (db : Db)
    (p : Payload) (hdec : fastapi_core.verify_token tok (some st) = Except.ok p) :
    (p.typ ≠ some "refresh" →
       (AuthService.refresh_tokens tok st now db).1 = .error InvalidTokenTypeError)
  ∧ (p.typ = some "refresh" → subject_ok p.sub = false →
       ∃ m, (AuthService.refresh_tokens tok st now db).1 = .error (.invalidToken m))
  ∧ (∀ s, p.typ = some "refresh" → p.sub = some (.str s) → s.length = 26 →
       (db : List User).find? (fun u => u.id == s) = none →
       (AuthService.refresh_tokens tok st now db).1 = .error UserNotFoundError)
  ∧ (∀ s u, p.typ = some "refresh" → p.sub = some (.str s) → s.length = 26 →
       (db : List User).find? (fun v => v.id == s) = some u → u.is_active = false →
       (AuthService.refresh_tokens tok st now db).1 = .error InactiveUserError)
  ∧ (∀ s u, p.typ = some "refresh" → p.sub = some (.str s) → s.length = 26 →
       (db : List User).find? (fun v => v.id == s) = some u → u.is_active = true →
       (AuthService.refresh_tokens tok st now db).1
         = .ok { accessToken := fastapi_core.create_access_token u.id none now,
                 refreshToken := fastapi_core.create_refresh_token u.id none now,
                 tokenType := "bearer",
                 expiresIn := st.security.access_token_expires_minutes * 60 }) := by
  have hempty : ("" : String).length = 0 := rfl
  refine ⟨?_, ?_, ?_, ?_, ?_⟩
  · intro htyp
    unfold AuthService.refresh_tokens
    rw [hdec]
    dsimp only
    rw [if_pos htyp]
  · intro htyp hs
    unfold AuthService.refresh_tokens
    rw [hdec]
    dsimp only
    rw [if_neg (by simp [htyp])]
    cases hsub : p.sub with
    | none => exact ⟨"Invalid token payload", rfl⟩
    | some v =>
      cases v with
      | str s =>
        by_cases h0 : s = ""
        · subst h0
          exact ⟨"Invalid token payload", rfl⟩
        · have hpt : pyTruthy (some (.str s)) = true := by
            simp only [pyTruthy, Bool.not_eq_true']
            exact beq_eq_false_iff_ne.mpr h0
          have hlen : s.length ≠ 26 := by
            intro hc
            rw [hsub] at hs
            simp [subject_ok, hc] at hs
          rw [hpt]
          simp only [Bool.not_true]
          rw [if_neg (by simp)]
          rw [if_pos hlen]
          exact ⟨"Invalid user ID format in token", rfl⟩
      | nonstr t =>
        cases t with
        | false => exact ⟨"Invalid token payload", rfl⟩
        | true =>
          rw [show pyTruthy (some (.nonstr true)) = true from rfl]
          simp only [Bool.not_true]
          rw [if_neg (by simp)]
          exact ⟨"Invalid user ID format in token", rfl⟩
  · intro s htyp hsub hlen hfind
    have hs0 : s ≠ "" := by intro hc; rw [hc, hempty] at hlen; exact absurd hlen (by simp)
    rw [refresh_tokens_decoded tok st now db p s hdec htyp hsub hs0]
    rw [if_neg (by simp [hlen]), hfind]
  · intro s u htyp hsub hlen hfind hact
    have hs0 : s ≠ "" := by intro hc; rw [hc, hempty] at hlen; exact absurd hlen (by simp)
    rw [refresh_tokens_decoded tok st now db p s hdec htyp hsub hs0]
    rw [if_neg (by simp [hlen]), hfind]
    dsimp only
    rw [if_pos (by simp [hact])]
  · intro s u htyp hsub hlen hfind hact
    rw [refresh_tokens_success tok st now db p s u hdec htyp hsub hlen hfind hact]

/-- Witness for C5 at concrete inputs: an access-typed token is rejected
with InvalidTokenTypeError, and a decodable refresh token for the active
account u1 yields the success-shaped pair. -/
theorem C5_witness :
    (AuthService.refresh_tokens (fastapi_core.create_access_token Fixtures.id1 (some Fixtures.st0) 0)
        Fixtures.st0 1 []).1 = .error InvalidTokenTypeError
  ∧ (AuthService.refresh_tokens Fixtures.rt0 Fixtures.st0 7 [Fixtures.u1]).1
      = .ok { accessToken := fastapi_core.create_access_token Fixtures.id1 none 7,
              refreshToken := fastapi_core.create_refresh_token Fixtures.id1 none 7,
              tokenType := "bearer", expiresIn := 1800 } := by
  constructor
  · exact (C5_refresh_error_taxonomy
      (fastapi_core.create_access_token Fixtures.id1 (some Fixtures.st0) 0) Fixtures.st0 1 []
      { sub := some (.str Fixtures.id1), typ := some "access" } rfl).1 (by decide)
  · exact (C5_refresh_error_taxonomy Fixtures.rt0 Fixtures.st0 7 [Fixtures.u1]
      { sub := some (.str Fixtures.id1), typ := some "refresh" } rfl).2.2.2.2
      Fixtures.id1 Fixtures.u1 rfl rfl (by decide) (by decide) rfl

/-- C6 counterexample: the token pair refresh issues is not produced by the
same issuance procedure as the shared helper. For the active account u1
and a valid refresh token, refresh succeeds, but the access token it signs
is the codec invoked without the application settings (cfg none), while
the shared helper _create_login_response signs with the settings passed
explicitly (cfg some st0) — distinguishable signing configurations, hence
not the same settings-derived expiries. -/
theorem C6_counterexample :
    (AuthService.refresh_tokens Fixtures.rt0 Fixtures.st0 7 [Fixtures.u1]).1
      = .ok { accessToken := fastapi_core.create_access_token Fixtures.id1 none 7,
              refreshToken := fastapi_core.create_refresh_token Fixtures.id1 none 7,
              tokenType := "bearer", expiresIn := 1800 }
  ∧ (AuthService.create_login_response Fixtures.u1 Fixtures.st0 7).accessToken
      = fastapi_core.create_access_token Fixtures.id1 (some Fixtures.st0) 7
  ∧ fastapi_core.create_access_token Fixtures.id1 none 7
      ≠ fastapi_core.create_access_token Fixtures.id1 (some Fixtures.st0) 7
  ∧ fastapi_core.create_refresh_token Fixtures.id1 none 7
      ≠ fastapi_core.create_refresh_token Fixtures.id1 (some Fixtures.st0) 7 := by
  refine ⟨by decide, rfl, by decide, by decide⟩

/-- C6 amended: for every account passing the refresh checks, refresh signs
its access and refresh tokens over the same claims (same subject, same
type tags, same instant) as the shared helper used by register and login,
and reports the same expiresIn (the configured access-token lifetime in
seconds) — but unlike the helper it invokes the codec without the
application settings, so the signing configuration recorded in its tokens
is the omitted-argument default of the codec rather than the settings-derived
one of the helper. -/
theorem C6_refresh_issuance_amended (u : User) (st : Settings) (now : Nat) (db : Db)
    (tok : Token) (p : Payload)
    (hdec : fastapi_core.verify_token tok (some st) = Except.ok p)
    (htyp : p.typ = some "refresh") (hsub : p.sub = some (.str u.id))
    (hlen : u.id.length = 26)
    (hfind : (db : List User).find? (fun v => v.id == u.id) = some u)
    (hact : u.is_active = true) :
    (AuthService.refresh_tokens tok st now db).1
      = .ok { accessToken := fastapi_core.create_access_token u.id none now,
              refreshToken := fastapi_core.create_refresh_token u.id none now,
              tokenType := "bearer",
              expiresIn := st.security.access_token_expires_minutes * 60 }
  ∧ (fastapi_core.create_access_token u.id none now).claims
      = ((AuthService.create_login_response u st now).accessToken).claims
  ∧ (fastapi_core.create_refresh_token u.id none now).claims
      = ((AuthService.create_login_response u st now).refreshToken).claims
  ∧ (AuthService.create_login_response u st now).expiresIn
      = st.security.access_token_expires_minutes * 60
  ∧ (fastapi_core.create_access_token u.id none now).signCfg = some none
  ∧ ((AuthService.create_login_response u st now).accessToken).signCfg = some (some st) := by
  refine ⟨?_, rfl, rfl, rfl, rfl, rfl⟩
  rw [refresh_tokens_success tok st now db p u.id u hdec htyp hsub hlen hfind hact]

/-- Witness for C6 amended at concrete inputs. -/
theorem C6_witness :
    (AuthService.refresh_tokens Fixtures.rt0 Fixtures.st0 9 [Fixtures.u1]).1
      = .ok { accessToken := fastapi_core.create_access_token Fixtures.id1 none 9,
              refreshToken := fastapi_core.create_refresh_token Fixtures.id1 none 9,
              tokenType := "bearer", expiresIn := 1800 }
  ∧ (fastapi_core.create_access_token Fixtures.id1 none 9).signCfg = some none
  ∧ ((AuthService.create_login_response Fixtures.u1 Fixtures.st0 9).accessToken).signCfg
      = some (some Fixtures.st0) := by
  obtain ⟨h1, _, _, _, h5, h6⟩ :=
    C6_refresh_issuance_amended Fixtures.u1 Fixtures.st0 9 [Fixtures.u1] Fixtures.rt0
      { sub := some (.str Fixtures.id1), typ := some "refresh" }
      rfl rfl rfl (by decide) (by decide) rfl
  exact ⟨h1, h5, h6⟩

/-- C7: every mutating core operation is atomic with respect to failure:
when register_user, request_password_reset (whose failure mode is the
silent none), reset_password or change_password does not succeed, the
committed store it returns is exactly the input store — no account record
is changed by a failed run. -/
theorem C7_atomic_on_failure
    (email password name fresh_id user_id current_password new_password : String)
    (tok : Token) (st : Settings) (now : Nat) (db : Db) (e : AuthError) :
    ((AuthService.register_user email password name fresh_id st now db).1 = .error e →
       (AuthService.register_user email password name fresh_id st now db).2 = db)
  ∧ ((AuthService.request_password_reset email st now db).1 = none →
       (AuthService.request_password_reset email st now db).2 = db)
  ∧ ((AuthService.reset_password tok new_password db).1 = .error e →
       (AuthService.reset_password tok new_password db).2 = db)
  ∧ ((AuthService.change_password user_id current_password new_password db).1 = .error e →
       (AuthService.change_password user_id current_password new_password db).2 = db) := by
  refine ⟨?_, ?_, ?_, ?_⟩
  · intro h
    unfold AuthService.register_user at h ⊢
    dsimp only at h ⊢
    cases hf : (db : List User).find? (fun v => v.email == normalize_email email) with
    | none => rw [hf] at h; exact absurd h (by simp)
    | some w => rfl
  · intro h
    rw [request_password_reset_eq] at h ⊢
    cases hf : (db : List User).find? (fun v => v.email == normalize_email email) with
    | none => rfl
    | some w =>
      rw [hf] at h
      dsimp only at h ⊢
      by_cases ha : w.is_active
      · rw [if_pos ha] at h; exact absurd h (by simp)
      · rw [if_neg ha]
  · intro h
    unfold AuthService.reset_password at h ⊢
    cases hs : AuthService.reset_password_scan tok new_password db with
    | some db2 => rw [hs] at h; exact absurd h (by simp)
    | none => rfl
  · intro h
    unfold AuthService.change_password at h ⊢
    cases hf : (db : List User).find? (fun v => v.id == user_id) with
    | none => rfl
    | some w =>
      rw [hf] at h
      dsimp only at h ⊢
      by_cases ha : w.is_active
      · rw [if_neg (by simp [ha])] at h ⊢
        by_cases hvc : w.verify_password current_password
        · rw [if_neg (by simp [hvc])] at h
          exact absurd h (by simp)
        · rw [if_pos (by simp [hvc])]
      · rw [if_pos (by simp [ha])]

/-- Witness for C7 at concrete inputs: a conflicting registration and the
always-failing password reset both leave the store untouched. -/
theorem C7_witness :
    (AuthService.register_user "bob@example.com" "AnyPassword1x" "Bob" Fixtures.id0
        Fixtures.st0 3 [Fixtures.u1]).2 = [Fixtures.u1]
  ∧ (AuthService.reset_password Fixtures.t0 "NewPassword2x" [Fixtures.u0]).2 = [Fixtures.u0] := by
  constructor
  · exact (C7_atomic_on_failure "bob@example.com" "AnyPassword1x" "Bob" Fixtures.id0
      "i" "c" "n" Fixtures.t0 Fixtures.st0 3 [Fixtures.u1] UserAlreadyExistsError).1 (by decide)
  · exact (C7_atomic_on_failure "e" "p" "n" "f" "i" "c" "NewPassword2x" Fixtures.t0
      Fixtures.st0 3 [Fixtures.u0] InvalidResetTokenError).2.2.1 (by decide)

/-- C8: the public account view contains exactly the six fields id, email,
name, active flag, creation timestamp and tier; it is invariant under any
change to the password hash, the reset token and the reset-token expiry —
so it never carries them — and it is precisely the view getProfile returns
and the view embedded in the responses of login and register. -/
theorem C8_public_view (u : User) (hashed : String) (rt : Option Token) (re : Option Nat)
    (st : Settings) (now : Nat) (email password name fresh_id : String) (db : Db)
    (r : LoginResponse) (db2 : Db) :
    AuthService.get_user_profile u = UserResponse.model_validate u
  ∧ UserResponse.model_validate
      { u with hashed_password := hashed, reset_token := rt, reset_token_expiry := re }
      = UserResponse.model_validate u
  ∧ UserResponse.model_validate u
      = { id := u.id, email := u.email, name := u.name, isActive := u.is_active,
          createdAt := u.created_at, tier := u.tier }
  ∧ (AuthService.authenticate_user email password st now db = (.ok r, db2) →
       ∃ v, (db : List User).find? (fun w => w.email == normalize_email email) = some v
            ∧ r.user = UserResponse.model_validate v)
  ∧ (AuthService.register_user email password name fresh_id st now db = (.ok r, db2) →
       ∃ v, db2 = (db : List User) ++ [v] ∧ r.user = UserResponse.model_validate v) := by
  refine ⟨rfl, rfl, rfl, ?_, ?_⟩
  · intro h
    unfold AuthService.authenticate_user at h
    dsimp only at h
    cases hf : (db : List User).find? (fun w => w.email == normalize_email email) with
    | none => rw [hf] at h; exact absurd h (by simp)
    | some v =>
      rw [hf] at h
      dsimp only at h
      by_cases hv : v.verify_password password
      · rw [if_neg (by simp [hv])] at h
        by_cases ha : v.is_active
        · rw [if_neg (by simp [ha])] at h
          rw [Prod.mk.injEq] at h
          obtain ⟨h1, _⟩ := h
          injection h1 with h1
          exact ⟨v, rfl, by rw [← h1]; rfl⟩
        · rw [if_pos (by simp [ha])] at h; exact absurd h (by simp)
      · rw [if_pos (by simp [hv])] at h; exact absurd h (by simp)
  · intro h
    unfold AuthService.register_user at h
    dsimp only at h
    cases hf : (db : List User).find? (fun v => v.email == normalize_email email) with
    | some w => rw [hf] at h; exact absurd h (by simp)
    | none =>
      rw [hf] at h
      dsimp only at h
      rw [Prod.mk.injEq] at h
      obtain ⟨h1, h2⟩ := h
      injection h1 with h1
      exact ⟨_, h2.symm, by rw [← h1]; rfl⟩

/-- Witness for C8 at concrete inputs: the view in the login response of bob
is the public projection of the bob record, and that projection ignores the
sensitive fields. -/
theorem C8_witness :
    (AuthService.create_login_response Fixtures.u1 Fixtures.st0 4).user
      = UserResponse.model_validate Fixtures.u1
  ∧ UserResponse.model_validate
      { Fixtures.u1 with
          hashed_password := "other",
          reset_token := some Fixtures.t0,
          reset_token_expiry := some 99 }
      = UserResponse.model_validate Fixtures.u1 := by
  obtain ⟨_, hinv, _, hlogin, _⟩ :=
    C8_public_view Fixtures.u1 "other" (some Fixtures.t0) (some 99) Fixtures.st0 4
      "bob@example.com" "CorrectHorse1x" "n" "f" [Fixtures.u1]
      (AuthService.create_login_response Fixtures.u1 Fixtures.st0 4) [Fixtures.u1]
  obtain ⟨v, hfind, huser⟩ := hlogin (by decide)
  have h0 : ([Fixtures.u1] : List User).find?
      (fun w => w.email == normalize_email "bob@example.com") = some Fixtures.u1 := by decide
  rw [h0] at hfind
  injection hfind with hfind
  rw [← hfind] at huser
  exact ⟨huser, hinv⟩

/-- update_first preserves the store-wide reset-fields invariant when the
update maps every invariant-satisfying record to an invariant-satisfying
record. -/
theorem db_consistent_update_first (p : User → Bool) (f : User → User)
    (hf : ∀ v, reset_fields_consistent v = true → reset_fields_consistent (f v) = true)
    (db : Db) (h : db_consistent db = true) :
    db_consistent (update_first p f db) = true := by
  induction db with
  | nil => rfl
  | cons w ws ih =>
    simp only [db_consistent, List.all_cons, Bool.and_eq_true] at h
    obtain ⟨hw, hws⟩ := h
    unfold update_first
    by_cases hpw : p w
    · rw [if_pos hpw]
      simp only [db_consistent, List.all_cons, Bool.and_eq_true]
      exact ⟨hf w hw, hws⟩
    · rw [if_neg hpw]
      simp only [db_consistent, List.all_cons, Bool.and_eq_true]
      exact ⟨hw, ih hws⟩

/-- C9: the reset-token/expiry pairing invariant. setResetToken assigns
both fields, clearResetToken clears both, the record created by register
has both absent, and every mutating operation maps a store in which every
account satisfies the both-or-neither invariant to a store that still
does; moreover a new reset request overwrites the single stored
token with the fresh one (an account has one reset_token field, so there
is never a second outstanding token). -/
theorem C9_reset_fields_invariant (u : User) (tok : Token) (expiry : Nat)
    (email password name fresh_id user_id current_password new_password : String)
    (st : Settings) (now : Nat) (db : Db)
    (hdb : db_consistent db = true) :
    reset_fields_consistent (u.set_reset_token tok expiry) = true
  ∧ (u.set_reset_token tok expiry).reset_token = some tok
  ∧ (u.set_reset_token tok expiry).reset_token_expiry = some expiry
  ∧ reset_fields_consistent u.clear_reset_token = true
  ∧ u.clear_reset_token.reset_token = none
  ∧ u.clear_reset_token.reset_token_expiry = none
  ∧ db_consistent (AuthService.register_user email password name fresh_id st now db).2 = true
  ∧ (∀ r db2, AuthService.register_user email password name fresh_id st now db = (Except.ok r, db2) →
       ∃ v, db2 = (db : List User) ++ [v] ∧ v.reset_token = none ∧ v.reset_token_expiry = none)
  ∧ db_consistent (AuthService.request_password_reset email st now db).2 = true
  ∧ (∀ tok2, (AuthService.request_password_reset email st now db).1 = some tok2 →
       ∃ v, (db : List User).find? (fun w => w.email == normalize_email email) = some v
         ∧ ((AuthService.request_password_reset email st now db).2 : List User).find?
             (fun w => w.email == normalize_email email)
             = some (v.set_reset_token tok2 (now + 3600)))
  ∧ db_consistent (AuthService.reset_password tok new_password db).2 = true
  ∧ db_consistent (AuthService.change_password user_id current_password new_password db).2 = true := by
  refine ⟨rfl, rfl, rfl, rfl, rfl, rfl, ?_, ?_, ?_, ?_, ?_, ?_⟩
  · unfold AuthService.register_user
    dsimp only
    cases hf : (db : List User).find? (fun v => v.email == normalize_email email) with
    | some w => exact hdb
    | none =>
      simp only [db_consistent, List.all_append, Bool.and_eq_true]
      exact ⟨hdb, by rfl⟩
  · intro r db2 h
    unfold AuthService.register_user at h
    dsimp only at h
    cases hf : (db : List User).find? (fun v => v.email == normalize_email email) with
    | some w => rw [hf] at h; exact absurd h (by simp)
    | none =>
      rw [hf] at h
      dsimp only at h
      rw [Prod.mk.injEq] at h
      obtain ⟨_, h2⟩ := h
      exact ⟨_, h2.symm, rfl, rfl⟩
  · rw [request_password_reset_eq]
    cases hf : (db : List User).find? (fun v => v.email == normalize_email email) with
    | none => exact hdb
    | some w =>
      dsimp only
      by_cases ha : w.is_active
      · rw [if_pos ha]
        exact db_consistent_update_first (fun v => v.email == normalize_email email)
          (fun v => v.set_reset_token
            (fastapi_core.create_password_reset_token w.id (some st) now) (now + 3600))
          (fun v _ => rfl) db hdb
      · rw [if_neg ha]
        exact hdb
  · intro tok2 h
    rw [request_password_reset_eq] at h
    rw [request_password_reset_eq]
    cases hf : (db : List User).find? (fun v => v.email == normalize_email email) with
    | none => rw [hf] at h; exact absurd h (by simp)
    | some w =>
      rw [hf] at h
      dsimp only at h ⊢
      by_cases ha : w.is_active
      · rw [if_pos ha] at h ⊢
        dsimp only at h
        injection h with h
        subst h
        refine ⟨w, rfl, ?_⟩
        dsimp only
        exact find?_update_first (fun v => v.email == normalize_email email)
          (fun v => v.set_reset_token
            (fastapi_core.create_password_reset_token w.id (some st) now) (now + 3600))
          (fun v => rfl) db w hf
      · rw [if_neg ha] at h
        exact absurd h (by simp)
  · unfold AuthService.reset_password
    rw [reset_password_scan_eq_none]
    exact hdb
  · unfold AuthService.change_password
    cases hf : (db : List User).find? (fun v => v.id == user_id) with
    | none => exact hdb
    | some w =>
      dsimp only
      by_cases ha : w.is_active
      · rw [if_neg (by simp [ha])]
        by_cases hvc : w.verify_password current_password
        · rw [if_neg (by simp [hvc])]
          exact db_consistent_update_first (fun v => v.id == user_id)
            (fun v => v.set_password new_password) (fun v hv => hv) db hdb
        · rw [if_pos (by simp [hvc])]
          exact hdb
      · rw [if_pos (by simp [ha])]
        exact hdb

/-- Witness for C9 at concrete inputs: the invariant holds after setting a
token on bob and after the alice reset request over a two-account store. -/
theorem C9_witness :
    reset_fields_consistent (Fixtures.u1.set_reset_token Fixtures.t0 3600) = true
  ∧ db_consistent (AuthService.request_password_reset "alice@example.com" Fixtures.st0 5
      [Fixtures.u0, Fixtures.u1]).2 = true := by
  constructor
  · exact (C9_reset_fields_invariant Fixtures.u1 Fixtures.t0 3600 "alice@example.com"
      "p" "n" "f" "i" "c" "np" Fixtures.st0 5 [Fixtures.u0, Fixtures.u1] (by decide)).1
  · exact (C9_reset_fields_invariant Fixtures.u1 Fixtures.t0 3600 "alice@example.com"
      "p" "n" "f" "i" "c" "np" Fixtures.st0 5 [Fixtures.u0, Fixtures.u1]
      (by decide)).2.2.2.2.2.2.2.2.1

end SaasAuth
